import Mathlib

/-!
Verification development for the "savana" backend relay.

The source is a single Express server with four POST endpoints:
a Retell voice-call relay, a Retell chat relay, a Stripe checkout-session
creator, and a Stripe webhook verifier/dispatcher.  Each handler is embedded
below as a pure Lean function; the outbound provider call is a function
parameter, and a thrown JavaScript exception is an `Except.error`.
-/

namespace Savana

/-! ## Signature scheme (spec-modelled)

The webhook route calls `stripe.webhooks.constructEvent`, which lives in the
Stripe library, not in this repository.  It is modelled from the spec:
an HMAC-style scheme over the raw bytes with a timestamp tolerance.
-/

/-- Modelled from the spec: the HMAC used by the provider-defined scheme,
idealised as a collision-free MAC, so a tag is equal to another exactly when
key and message agree.  The real SHA-256 HMAC is outside the repository. -/
def hmacSHA256 (key msg : String) : String × String := (key, msg)

/-- The timestamped string the provider signs: timestamp, a dot, raw body. -/
def signedPayload (t : Nat) (payload : String) : String :=
  toString t ++ "." ++ payload

/-- A parsed signature header: a timestamp and one v1 MAC tag. -/
structure SigHeader where
  t : Nat
  v1 : String × String
deriving DecidableEq

/-- Modelled from the spec: signature generation as the provider performs it
over the raw payload bytes at time `t` with the signing secret. -/
def signPayload (secret : String) (t : Nat) (payload : String) : SigHeader :=
  ⟨t, hmacSHA256 secret (signedPayload t payload)⟩

/-- Stripe's default timestamp tolerance, in seconds. -/
def DEFAULT_TOLERANCE : Nat := 300

/-- A verified event: a type tag and an opaque data object. -/
structure StripeEvent where
  type : String
  data : String
deriving DecidableEq

/-- Split a character list at the first newline. -/
def splitAtNewline : List Char → List Char × List Char
  | [] => ⟨[], []⟩
  | c :: cs =>
    if c = '\n' then ⟨[], cs⟩
    else
      let p := splitAtNewline cs
      ⟨c :: p.1, p.2⟩

/-- Modelled from the spec: decoding the verified bytes into an event with a
type tag and associated data.  The provider-defined JSON envelope is
abstracted as the tag, a newline, then the data. -/
def decodeEvent (payload : String) : StripeEvent :=
  let p := splitAtNewline payload.data
  ⟨⟨p.1⟩, ⟨p.2⟩⟩

def msgMissingHeader : String :=
  "Unable to extract timestamp and signatures from header"

def msgNoMatch : String :=
  "No signatures found matching the expected signature for payload"

def msgExpired : String :=
  "Timestamp outside the tolerance zone"

/-- Modelled from the spec: `stripe.webhooks.constructEvent` (library code not
in this repository).  Verify the MAC over the raw body with the secret and the
header timestamp, reject stale timestamps, then decode the event.  A missing
or unparsable header is `none`. -/
def constructEvent (payload : String) (sig : Option SigHeader)
    (secret : String) (now : Nat) : Except String StripeEvent :=
  match sig with
  | none => .error msgMissingHeader
  | some h =>
    if hmacSHA256 secret (signedPayload h.t payload) ≠ h.v1 then
      .error msgNoMatch
    else if DEFAULT_TOLERANCE < now - h.t then
      .error msgExpired
    else
      .ok (decodeEvent payload)

/-! ## Webhook route (from the source, part_000 lines 172-204) -/

/-- Response body of the webhook route: either `res.send` of a text error or
the `res.json` acknowledgement with `received` set to true. -/
inductive WebhookBody where
  | text (s : String)
  | receivedAck
deriving DecidableEq

/-- What the webhook route produced when it responded: HTTP status, body,
console log lines, and the event type a dispatch branch ran for
(`none` when verification failed and no branch ran). -/
structure WebhookResult where
  status : Nat
  body : WebhookBody
  logs : List String
  dispatched : Option String
deriving DecidableEq

/-- Outcome of one webhook request: a response, or an exception escaping the
route uncaught (no response sent). -/
inductive WebhookOutcome where
  | responded (r : WebhookResult)
  | uncaught (err : String)
deriving DecidableEq

/-- The switch statement of the webhook route (part_000 lines 184-201):
each branch only logs; the default branch records the unhandled tag. -/
def handleEvent (e : StripeEvent) : List String :=
  match e.type with
  | "checkout.session.completed" => ["Payment successful: " ++ e.data]
  | "invoice.payment_succeeded" => ["Subscription payment succeeded"]
  | "customer.subscription.deleted" => ["Subscription cancelled"]
  | _ => ["Unhandled event type " ++ e.type]

/-- The webhook route's control flow (part_000 lines 172-204), with the effect
of the switch's case bodies abstracted as `handle` so that statements about
exception flow can be made: the try/catch wraps only `constructEvent`; the
switch and the acknowledgement run after it, unguarded, so an error from
`handle` escapes uncaught. -/
def stripeWebhookWith (handle : StripeEvent → Except String (List String))
    (secret : String) (now : Nat) (payload : String) (sig : Option SigHeader) :
    WebhookOutcome :=
  match constructEvent payload sig secret now with
  | .error msg =>
    .responded
      { status := 400
        body := .text ("Webhook Error: " ++ msg)
        logs := ["Webhook signature verification failed. " ++ msg]
        dispatched := none }
  | .ok event =>
    match handle event with
    | .error e => .uncaught e
    | .ok ls =>
      .responded
        { status := 200
          body := .receivedAck
          logs := ls
          dispatched := some event.type }

/-- The webhook route as written: its case bodies are the logging-only
`handleEvent`, which never throws. -/
def stripeWebhook (secret : String) (now : Nat) (payload : String)
    (sig : Option SigHeader) : WebhookOutcome :=
  stripeWebhookWith (fun e => .ok (handleEvent e)) secret now payload sig

/-- A dispatch behaviour that throws: used to show what the route's control
flow does when a case body raises. -/
def throwingHandler : StripeEvent → Except String (List String) :=
  fun _ => .error "handler exploded"

/-- The three event types the switch names explicitly. -/
def knownEventTypes : List String :=
  ["checkout.session.completed", "invoice.payment_succeeded",
   "customer.subscription.deleted"]

/-! ## Relay routes (from the source, part_000 lines 25-169)

Request bodies are JavaScript objects whose fields may be absent, so each
field is an `Option String`; a JavaScript falsiness test on such a field
holds when the field is absent or the empty string.  The outbound `fetch`
or Stripe client call is passed in as a function; `Except.error` models a
thrown exception caught by the route's catch block.
-/

/-- JavaScript falsiness of an optional string field. -/
def falsy : Option String → Bool
  | none => true
  | some s => s.isEmpty

/-- The single JSON response shape of the relay routes; fields the handler
does not set are absent. -/
structure ApiResponse where
  status : Nat
  error : Option String := none
  details : Option String := none
  message : Option String := none
  success : Option Bool := none
  callId : Option String := none
  sessionId : Option String := none
  response : Option String := none
deriving DecidableEq

/-- `userPhone.replace` with a one-character string pattern removes only the
first occurrence of the plus sign. -/
def replaceFirstPlus : List Char → List Char
  | [] => []
  | c :: cs => if c = '+' then cs else c :: replaceFirstPlus cs

/-- `cleanPhone` as computed at part_000 lines 34 and 90. -/
def cleanPhone (s : String) : String := ⟨replaceFirstPlus s.data⟩

/-- The body of the outbound Retell create-phone-call request
(part_000 lines 43-51). -/
structure RetellCallRequest where
  from_number : Option String
  to_number : String
  agent_id : Option String
  metadata_user_id : Option String
  metadata_phone : String
deriving DecidableEq

/-- What the awaited voice-call fetch resolved to: HTTP success flag, body
text (read on error) and the parsed call id (read on success). -/
structure VoiceFetchResp where
  ok : Bool
  text : String
  call_id : Option String
deriving DecidableEq

/-- The voice-call route (part_000 lines 25-78).  Returns the outbound
request it issued, if any, together with the HTTP response. -/
def voiceCallRoute (userPhone userId : Option String)
    (envFrom envAgent : Option String)
    (fetch : RetellCallRequest → Except String VoiceFetchResp) :
    Option RetellCallRequest × ApiResponse :=
  if falsy userPhone then
    (none, { status := 400, error := some "User phone number is required" })
  else
    let p := userPhone.getD ""
    let req : RetellCallRequest :=
      { from_number := envFrom
        to_number := p
        agent_id := envAgent
        metadata_user_id := userId
        metadata_phone := cleanPhone p }
    match fetch req with
    | .error e =>
      (some req,
       { status := 500, error := some "Internal server error", message := some e })
    | .ok r =>
      if r.ok then
        (some req,
         { status := 200, success := some true, callId := r.call_id
           message := some "Voice call initiated successfully" })
      else
        (some req,
         { status := 500, error := some "Failed to initiate call with Retell AI"
           details := some r.text })

/-- The body of the outbound Retell chat-completion request
(part_000 lines 99-112). -/
structure RetellChatRequest where
  llm_id : Option String
  messages : List (String × String)
  metadata_user_id : Option String
  metadata_phone : String
  metadata_session_id : Option String
deriving DecidableEq

/-- One element of `chatData.choices`; the optional chaining in the source
means both the message and its content may be absent. -/
structure ChatChoice where
  message_content : Option (Option String)
deriving DecidableEq

/-- The parsed chat-completion response body. -/
structure ChatData where
  choices : Option (List ChatChoice)
  session_id : Option String
deriving DecidableEq

/-- What the awaited chat fetch resolved to. -/
structure ChatFetchResp where
  ok : Bool
  text : String
  chat : ChatData
deriving DecidableEq

/-- `chatData.choices?.[0]?.message?.content` (part_000 line 128). -/
def firstChoiceContent (d : ChatData) : Option String :=
  match d.choices with
  | none => none
  | some [] => none
  | some (c :: _) =>
    match c.message_content with
    | none => none
    | some content => content

/-- The fixed fallback apology text of the chat route. -/
def chatFallback : String :=
  "I apologize, but I couldn\x27t process your message. Please try again."

/-- JavaScript `x || fb` on an optional string: the fallback is taken when
the value is absent, null, or the empty string. -/
def orFallback (x : Option String) (fb : String) : String :=
  match x with
  | none => fb
  | some s => if s.isEmpty then fb else s

/-- The chat route (part_000 lines 81-139). -/
def chatRoute (message userPhone userId sessionId : Option String)
    (envLlm : Option String)
    (fetch : RetellChatRequest → Except String ChatFetchResp) :
    Option RetellChatRequest × ApiResponse :=
  if falsy message || falsy userPhone then
    (none, { status := 400, error := some "Message and user phone are required" })
  else
    let m := message.getD ""
    let p := userPhone.getD ""
    let req : RetellChatRequest :=
      { llm_id := envLlm
        messages := [("user", m)]
        metadata_user_id := userId
        metadata_phone := cleanPhone p
        metadata_session_id := sessionId }
    match fetch req with
    | .error e =>
      (some req,
       { status := 500, error := some "Internal server error", message := some e })
    | .ok r =>
      if r.ok then
        (some req,
         { status := 200, success := some true
           response := some (orFallback (firstChoiceContent r.chat) chatFallback)
           sessionId := r.chat.session_id })
      else
        (some req,
         { status := 500, error := some "Failed to get response from Savana"
           details := some r.text })

/-- The parameters of the outbound `stripe.checkout.sessions.create` call
(part_000 lines 146-162). -/
structure CheckoutParams where
  price : Option String
  customer_email : Option String
  metadata_userId : Option String
  metadata_planName : Option String
  origin : Option String
deriving DecidableEq

/-- The checkout-session route (part_000 lines 142-169).  The source
performs no required-field validation: it always issues the provider call,
and a thrown provider error surfaces as a 500 with the error message. -/
def createCheckoutSessionRoute (priceId userId userEmail planName : Option String)
    (origin : Option String)
    (create : CheckoutParams → Except String String) :
    Option CheckoutParams × ApiResponse :=
  let params : CheckoutParams :=
    { price := priceId
      customer_email := userEmail
      metadata_userId := userId
      metadata_planName := planName
      origin := origin }
  match create params with
  | .error m => (some params, { status := 500, error := some m })
  | .ok sid => (some params, { status := 200, sessionId := some sid })

/-! ## Helper lemmas -/

/-- Whenever verification fails, the webhook route answers 400 with the error
message, logs the failure, runs no dispatch branch, and sends no
acknowledgement — for any choice of dispatch behaviour. -/
theorem webhook_reject_of_error
    (handle : StripeEvent → Except String (List String))
    (secret : String) (now : Nat) (payload : String) (sig : Option SigHeader)
    (msg : String) (h : constructEvent payload sig secret now = .error msg) :
    stripeWebhookWith handle secret now payload sig =
      .responded
        { status := 400
          body := .text ("Webhook Error: " ++ msg)
          logs := ["Webhook signature verification failed. " ++ msg]
          dispatched := none } := by
  simp [stripeWebhookWith, h]

/-- With a genuine header and a fresh timestamp, verification succeeds and
yields the decoded event. -/
theorem constructEvent_genuine (payload secret : String) (t now : Nat)
    (h : now - t ≤ DEFAULT_TOLERANCE) :
    constructEvent payload (some (signPayload secret t payload)) secret now =
      .ok (decodeEvent payload) := by
  simp [constructEvent, signPayload, Nat.not_lt.mpr h]

/-- The switch's default branch: an event whose type is none of the three
named tags only logs the unhandled tag. -/
theorem handleEvent_default (e : StripeEvent) (h : e.type ∉ knownEventTypes) :
    handleEvent e = ["Unhandled event type " ++ e.type] := by
  simp [knownEventTypes] at h
  obtain ⟨h1, h2, h3⟩ := h
  unfold handleEvent
  split <;> simp_all

/-- The timestamped signed string determines the payload. -/
theorem signedPayload_inj (t : Nat) (a b : String)
    (h : signedPayload t a = signedPayload t b) : a = b := by
  unfold signedPayload at h
  have hd := congrArg String.data h
  simp [String.data_append] at hd
  exact String.ext hd

/-- Removing the first plus from a plus-free list is the identity. -/
theorem replaceFirstPlus_no_plus (l : List Char) (h : '+' ∉ l) :
    replaceFirstPlus l = l := by
  induction l with
  | nil => rfl
  | cons x xs ih =>
    simp only [List.mem_cons, not_or] at h
    simp [replaceFirstPlus, Ne.symm h.1, ih h.2]

/-- Only the first plus is removed; everything after it survives. -/
theorem replaceFirstPlus_append (a b : List Char) (h : '+' ∉ a) :
    replaceFirstPlus (a ++ '+' :: b) = a ++ b := by
  induction a with
  | nil => simp [replaceFirstPlus]
  | cons x xs ih =>
    simp only [List.mem_cons, not_or] at h
    simp [replaceFirstPlus, Ne.symm h.1, ih h.2]

/-- A non-empty string is not `isEmpty`. -/
theorem isEmpty_eq_false_of_ne (s : String) (h : s ≠ "") : s.isEmpty = false := by
  cases hb : s.isEmpty
  · rfl
  · exact absurd ((String.isEmpty_iff s).mp hb) h

/-- A present non-empty field is not falsy. -/
theorem falsy_some_eq_false (s : String) (h : s ≠ "") : falsy (some s) = false := by
  simp only [falsy]
  exact isEmpty_eq_false_of_ne s h

/-- The chat route's `||` fallback never produces the empty string. -/
theorem orFallback_ne_empty (x : Option String) :
    orFallback x chatFallback ≠ "" := by
  cases x with
  | none => simp [orFallback, chatFallback]
  | some s =>
    simp only [orFallback]
    split
    · simp [chatFallback]
    · rename_i hs
      intro hh
      exact hs (String.isEmpty_iff s |>.mpr hh)

/-! ## Claims -/

/-- C1: whenever signature verification of the raw body fails, the webhook
handler responds 400 with an error message, no event-type branch runs
(`dispatched` is `none`), and no acknowledgement body is sent (the body is
the error text, not `receivedAck`). -/
theorem webhook_verification_failure_rejects
    (secret : String) (now : Nat) (payload : String) (sig : Option SigHeader)
    (msg : String) (h : constructEvent payload sig secret now = .error msg) :
    stripeWebhook secret now payload sig =
      .responded
        { status := 400
          body := .text ("Webhook Error: " ++ msg)
          logs := ["Webhook signature verification failed. " ++ msg]
          dispatched := none } :=
  webhook_reject_of_error _ secret now payload sig msg h

/-- C1 witness: a request with no signature header is rejected with 400 and
no dispatch. -/
theorem webhook_verification_failure_rejects_witness :
    constructEvent "evt\nd" none "whsec_abc" 7 = .error msgMissingHeader ∧
    stripeWebhook "whsec_abc" 7 "evt\nd" none =
      .responded
        { status := 400
          body := .text ("Webhook Error: " ++ msgMissingHeader)
          logs := ["Webhook signature verification failed. " ++ msgMissingHeader]
          dispatched := none } :=
  ⟨rfl, webhook_verification_failure_rejects "whsec_abc" 7 "evt\nd" none
    msgMissingHeader rfl⟩

/-- C5: a verified event whose type tag is none of the three known tags falls
through to the default branch, which only logs the tag, and the route still
answers 200 with the `received` acknowledgement. -/
theorem webhook_unknown_type_acknowledged
    (secret : String) (now : Nat) (payload : String) (sig : Option SigHeader)
    (e : StripeEvent) (hok : constructEvent payload sig secret now = .ok e)
    (hunk : e.type ∉ knownEventTypes) :
    stripeWebhook secret now payload sig =
      .responded
        { status := 200
          body := .receivedAck
          logs := ["Unhandled event type " ++ e.type]
          dispatched := some e.type } := by
  simp [stripeWebhook, stripeWebhookWith, hok, handleEvent_default e hunk]

/-- C5 witness: a correctly signed event of the unknown type
`some.unknown` is acknowledged with 200. -/
theorem webhook_unknown_type_acknowledged_witness :
    constructEvent "some.unknown\nd" (some (signPayload "whsec_abc" 5 "some.unknown\nd")) "whsec_abc" 5 =
      .ok ⟨"some.unknown", "d"⟩ ∧
    "some.unknown" ∉ knownEventTypes ∧
    stripeWebhook "whsec_abc" 5 "some.unknown\nd" (some (signPayload "whsec_abc" 5 "some.unknown\nd")) =
      .responded
        { status := 200
          body := .receivedAck
          logs := ["Unhandled event type " ++ "some.unknown"]
          dispatched := some "some.unknown" } :=
  ⟨rfl, by decide,
   webhook_unknown_type_acknowledged "whsec_abc" 5 "some.unknown\nd"
     (some (signPayload "whsec_abc" 5 "some.unknown\nd")) ⟨"some.unknown", "d"⟩
     rfl (by decide)⟩

/-- C2: a signature computed with secret `S` over payload `P` at time `t`
never verifies under a different secret, and never verifies a body that
differs in any byte from `P`; in both cases the route rejects with 400 and
dispatches nothing. -/
theorem webhook_verification_binds_secret_and_bytes
    (S SX P PX : String) (t now : Nat) :
    (SX ≠ S →
      constructEvent P (some (signPayload S t P)) SX now = .error msgNoMatch ∧
      stripeWebhook SX now P (some (signPayload S t P)) =
        .responded
          { status := 400
            body := .text ("Webhook Error: " ++ msgNoMatch)
            logs := ["Webhook signature verification failed. " ++ msgNoMatch]
            dispatched := none }) ∧
    (PX ≠ P →
      constructEvent PX (some (signPayload S t P)) S now = .error msgNoMatch ∧
      stripeWebhook S now PX (some (signPayload S t P)) =
        .responded
          { status := 400
            body := .text ("Webhook Error: " ++ msgNoMatch)
            logs := ["Webhook signature verification failed. " ++ msgNoMatch]
            dispatched := none }) := by
  constructor
  · intro hS
    have hc : constructEvent P (some (signPayload S t P)) SX now = .error msgNoMatch := by
      simp [constructEvent, signPayload, hmacSHA256, hS]
    exact ⟨hc, webhook_reject_of_error _ SX now P _ msgNoMatch hc⟩
  · intro hP
    have hsp : signedPayload t PX ≠ signedPayload t P :=
      fun hh => hP (signedPayload_inj t PX P hh)
    have hc : constructEvent PX (some (signPayload S t P)) S now = .error msgNoMatch := by
      simp [constructEvent, signPayload, hmacSHA256, hsp]
    exact ⟨hc, webhook_reject_of_error _ S now PX _ msgNoMatch hc⟩

/-- C2 witness: a wrong secret and a one-byte body mutation are both
rejected at a concrete input. -/
theorem webhook_verification_binds_secret_and_bytes_witness :
    ("whsec_b" ≠ "whsec_a" ∧ "evt\nd " ≠ "evt\nd") ∧
    (constructEvent "evt\nd" (some (signPayload "whsec_a" 3 "evt\nd")) "whsec_b" 3 =
        .error msgNoMatch ∧
      stripeWebhook "whsec_b" 3 "evt\nd" (some (signPayload "whsec_a" 3 "evt\nd")) =
        .responded
          { status := 400
            body := .text ("Webhook Error: " ++ msgNoMatch)
            logs := ["Webhook signature verification failed. " ++ msgNoMatch]
            dispatched := none }) ∧
    (constructEvent "evt\nd " (some (signPayload "whsec_a" 3 "evt\nd")) "whsec_a" 3 =
        .error msgNoMatch ∧
      stripeWebhook "whsec_a" 3 "evt\nd " (some (signPayload "whsec_a" 3 "evt\nd")) =
        .responded
          { status := 400
            body := .text ("Webhook Error: " ++ msgNoMatch)
            logs := ["Webhook signature verification failed. " ++ msgNoMatch]
            dispatched := none }) :=
  ⟨⟨by decide, by decide⟩,
   (webhook_verification_binds_secret_and_bytes "whsec_a" "whsec_b" "evt\nd" "evt\nd " 3 3).1
     (by decide),
   (webhook_verification_binds_secret_and_bytes "whsec_a" "whsec_b" "evt\nd" "evt\nd " 3 3).2
     (by decide)⟩

/-- C8: the signing secret flows into the webhook route only through the
verification verdict — two secrets yielding the same verdict produce
identical responses, logs and dispatch — and on failure the logged and
returned reason is one of three fixed strings, never the secret. -/
theorem webhook_secret_confined :
    (∀ (P : String) (sig : Option SigHeader) (now : Nat) (S1 S2 : String),
        constructEvent P sig S1 now = constructEvent P sig S2 now →
        stripeWebhook S1 now P sig = stripeWebhook S2 now P sig) ∧
    (∀ (P : String) (sig : Option SigHeader) (now : Nat) (S msg : String),
        constructEvent P sig S now = .error msg →
        msg = msgMissingHeader ∨ msg = msgNoMatch ∨ msg = msgExpired) := by
  constructor
  · intro P sig now S1 S2 h
    simp only [stripeWebhook, stripeWebhookWith, h]
  · intro P sig now S msg h
    cases sig with
    | none =>
      simp only [constructEvent] at h
      cases h
      exact Or.inl rfl
    | some hd =>
      simp only [constructEvent] at h
      split at h
      · cases h
        exact Or.inr (Or.inl rfl)
      · split at h
        · cases h
          exact Or.inr (Or.inr rfl)
        · cases h

/-- C8 witness: two different secrets with the same (failing) verdict give
byte-identical output, and the concrete failure reason is a fixed string. -/
theorem webhook_secret_confined_witness :
    stripeWebhook "whsec_a" 0 "evt\nd" none = stripeWebhook "whsec_b" 0 "evt\nd" none ∧
    (msgMissingHeader = msgMissingHeader ∨ msgMissingHeader = msgNoMatch ∨
      msgMissingHeader = msgExpired) :=
  ⟨webhook_secret_confined.1 "evt\nd" none 0 "whsec_a" "whsec_b" rfl,
   webhook_secret_confined.2 "evt\nd" none 0 "whsec_a" msgMissingHeader rfl⟩

/-- C7: verification is a pure function of payload, header, secret and clock:
a second verification of the same input returns the same result as the
first, and with the correct secret and a fresh genuine header both (equal)
results are success. -/
theorem webhook_verification_idempotent
    (payload secret : String) (t now : Nat)
    (h : now - t ≤ DEFAULT_TOLERANCE) :
    constructEvent payload (some (signPayload secret t payload)) secret now =
      constructEvent payload (some (signPayload secret t payload)) secret now ∧
    constructEvent payload (some (signPayload secret t payload)) secret now =
      .ok (decodeEvent payload) :=
  ⟨rfl, constructEvent_genuine payload secret t now h⟩

/-- C7 witness: verifying a concrete genuine event twice gives the same
successful result. -/
theorem webhook_verification_idempotent_witness :
    (10 : Nat) - 10 ≤ DEFAULT_TOLERANCE ∧
    (constructEvent "evt\nd" (some (signPayload "whsec_abc" 10 "evt\nd")) "whsec_abc" 10 =
       constructEvent "evt\nd" (some (signPayload "whsec_abc" 10 "evt\nd")) "whsec_abc" 10 ∧
     constructEvent "evt\nd" (some (signPayload "whsec_abc" 10 "evt\nd")) "whsec_abc" 10 =
       .ok (decodeEvent "evt\nd")) :=
  ⟨by decide, webhook_verification_idempotent "evt\nd" "whsec_abc" 10 10 (by decide)⟩

/-- C4 counterexample: the try/catch wraps only verification, so when a
dispatch branch throws on a correctly signed event, the route's outcome is
`uncaught` — no response is sent, the acknowledgement is not attempted, and
the exception propagates past the handler boundary. -/
theorem webhook_dispatch_exception_escapes :
    stripeWebhookWith throwingHandler "whsec_abc" 0 "checkout.session.completed\nd"
      (some (signPayload "whsec_abc" 0 "checkout.session.completed\nd")) =
      .uncaught "handler exploded" := rfl

/-- C4 amended: the dispatch branches as written only log and never throw,
so the route never ends in an uncaught exception, and every verified event
is acknowledged with 200 and the `received` body. -/
theorem webhook_route_never_uncaught :
    (∀ (secret : String) (now : Nat) (payload : String) (sig : Option SigHeader)
        (err : String), stripeWebhook secret now payload sig ≠ .uncaught err) ∧
    (∀ (secret : String) (now : Nat) (payload : String) (sig : Option SigHeader)
        (e : StripeEvent),
        constructEvent payload sig secret now = .ok e →
        stripeWebhook secret now payload sig =
          .responded
            { status := 200
              body := .receivedAck
              logs := handleEvent e
              dispatched := some e.type }) := by
  constructor
  · intro secret now payload sig err
    simp only [stripeWebhook, stripeWebhookWith]
    split <;> simp
  · intro secret now payload sig e h
    simp [stripeWebhook, stripeWebhookWith, h]

/-- C4 amended witness: a concrete verified event is acknowledged and no
outcome is an uncaught exception. -/
theorem webhook_route_never_uncaught_witness :
    stripeWebhook "whsec_abc" 0 "evt\nd" none ≠ .uncaught "boom" ∧
    stripeWebhook "whsec_abc" 0 "evt\nd" (some (signPayload "whsec_abc" 0 "evt\nd")) =
      .responded
        { status := 200
          body := .receivedAck
          logs := handleEvent ⟨"evt", "d"⟩
          dispatched := some "evt" } :=
  ⟨webhook_route_never_uncaught.1 "whsec_abc" 0 "evt\nd" none "boom",
   webhook_route_never_uncaught.2 "whsec_abc" 0 "evt\nd"
     (some (signPayload "whsec_abc" 0 "evt\nd")) ⟨"evt", "d"⟩ rfl⟩

/-- C3 counterexample: a checkout-session request with every field missing
still issues the outbound provider call, and the response is a 500 from the
provider failure, not a 400 validation error. -/
theorem checkout_missing_field_still_calls_provider :
    (createCheckoutSessionRoute none none none none none
        (fun _ => .error "No such price")).1 =
      some ⟨none, none, none, none, none⟩ ∧
    (createCheckoutSessionRoute none none none none none
        (fun _ => .error "No such price")).2 =
      { status := 500, error := some "No such price" } :=
  ⟨rfl, rfl⟩

/-- C3 amended: the voice-call and chat routes reject a missing required
field with 400, an `error` field and no outbound call; the checkout route
performs no required-field validation — it always issues the provider call
and never answers 400. -/
theorem relay_missing_field_validation :
    (∀ (up uid envF envA : Option String)
        (fetch : RetellCallRequest → Except String VoiceFetchResp),
        falsy up = true →
        voiceCallRoute up uid envF envA fetch =
          (none, { status := 400, error := some "User phone number is required" })) ∧
    (∀ (m up uid sid envL : Option String)
        (fetch : RetellChatRequest → Except String ChatFetchResp),
        (falsy m || falsy up) = true →
        chatRoute m up uid sid envL fetch =
          (none, { status := 400, error := some "Message and user phone are required" })) ∧
    (∀ (priceId uid email plan origin : Option String)
        (create : CheckoutParams → Except String String),
        (createCheckoutSessionRoute priceId uid email plan origin create).1 =
          some ⟨priceId, email, uid, plan, origin⟩ ∧
        (createCheckoutSessionRoute priceId uid email plan origin create).2.status ≠ 400) := by
  refine ⟨?_, ?_, ?_⟩
  · intro up uid envF envA fetch h
    simp [voiceCallRoute, h]
  · intro m up uid sid envL fetch h
    simp [chatRoute, h]
  · intro priceId uid email plan origin create
    unfold createCheckoutSessionRoute
    constructor
    · cases h : create ⟨priceId, email, uid, plan, origin⟩ <;> simp [h]
    · cases h : create ⟨priceId, email, uid, plan, origin⟩ <;> simp [h]

/-- C3 amended witness: concrete missing-field requests on the three routes. -/
theorem relay_missing_field_validation_witness :
    voiceCallRoute none (some "u1") none none (fun _ => .ok ⟨true, "", none⟩) =
      (none, { status := 400, error := some "User phone number is required" }) ∧
    chatRoute (some "hi") none none none none (fun _ => .ok ⟨true, "", ⟨none, none⟩⟩) =
      (none, { status := 400, error := some "Message and user phone are required" }) ∧
    ((createCheckoutSessionRoute none (some "u1") none none none
        (fun _ => .error "No such price")).1 =
      some ⟨none, none, some "u1", none, none⟩ ∧
     (createCheckoutSessionRoute none (some "u1") none none none
        (fun _ => .error "No such price")).2.status ≠ 400) :=
  ⟨relay_missing_field_validation.1 none (some "u1") none none
     (fun _ => .ok ⟨true, "", none⟩) rfl,
   relay_missing_field_validation.2.1 (some "hi") none none none none
     (fun _ => .ok ⟨true, "", ⟨none, none⟩⟩) rfl,
   relay_missing_field_validation.2.2 none (some "u1") none none none
     (fun _ => .error "No such price")⟩

/-- C6: when the required fields are present and the provider answers
non-2xx, the voice-call and chat routes answer 500 with an `error` field and
the provider's diagnostic text under `details`. -/
theorem relay_upstream_failure_surfaces_details :
    (∀ (p : String) (uid envF envA : Option String)
        (fetch : RetellCallRequest → Except String VoiceFetchResp)
        (d : String) (cid : Option String),
        p ≠ "" →
        fetch ⟨envF, p, envA, uid, cleanPhone p⟩ = .ok ⟨false, d, cid⟩ →
        voiceCallRoute (some p) uid envF envA fetch =
          (some ⟨envF, p, envA, uid, cleanPhone p⟩,
           { status := 500, error := some "Failed to initiate call with Retell AI",
             details := some d })) ∧
    (∀ (m p : String) (uid sid envL : Option String)
        (fetch : RetellChatRequest → Except String ChatFetchResp)
        (d : String) (cd : ChatData),
        m ≠ "" → p ≠ "" →
        fetch ⟨envL, [("user", m)], uid, cleanPhone p, sid⟩ = .ok ⟨false, d, cd⟩ →
        chatRoute (some m) (some p) uid sid envL fetch =
          (some ⟨envL, [("user", m)], uid, cleanPhone p, sid⟩,
           { status := 500, error := some "Failed to get response from Savana",
             details := some d })) := by
  constructor
  · intro p uid envF envA fetch d cid hp hf
    have hfe : falsy (some p) = false := falsy_some_eq_false p hp
    simp [voiceCallRoute, hfe, hf]
  · intro m p uid sid envL fetch d cd hm hp hf
    have hme : falsy (some m) = false := falsy_some_eq_false m hm
    have hpe : falsy (some p) = false := falsy_some_eq_false p hp
    simp [chatRoute, hme, hpe, hf]

/-- C6 witness: a concrete provider rejection surfaces as 500 with details
on both routes. -/
theorem relay_upstream_failure_surfaces_details_witness :
    voiceCallRoute (some "+2348012345678") none none none
        (fun _ => .ok ⟨false, "invalid key", none⟩) =
      (some ⟨none, "+2348012345678", none, none, cleanPhone "+2348012345678"⟩,
       { status := 500, error := some "Failed to initiate call with Retell AI",
         details := some "invalid key" }) ∧
    chatRoute (some "hello") (some "+2348012345678") none none none
        (fun _ => .ok ⟨false, "invalid key", ⟨none, none⟩⟩) =
      (some ⟨none, [("user", "hello")], none, cleanPhone "+2348012345678", none⟩,
       { status := 500, error := some "Failed to get response from Savana",
         details := some "invalid key" }) :=
  ⟨relay_upstream_failure_surfaces_details.1 "+2348012345678" none none none
     (fun _ => .ok ⟨false, "invalid key", none⟩) "invalid key" none (by decide) rfl,
   relay_upstream_failure_surfaces_details.2 "hello" "+2348012345678" none none none
     (fun _ => .ok ⟨false, "invalid key", ⟨none, none⟩⟩) "invalid key" ⟨none, none⟩
     (by decide) (by decide) rfl⟩

/-- C9: the outbound call request carries `to_number` exactly as supplied,
plus included, while `metadata.phone` is the supplied phone with only the
first plus removed: a plus-free prefix survives, everything after the first
plus survives (later pluses included), and a plus-free phone is unchanged. -/
theorem voice_call_phone_forwarding
    (p : String) (uid envF envA : Option String)
    (fetch : RetellCallRequest → Except String VoiceFetchResp)
    (a b c : List Char)
    (hp : p ≠ "") (ha : '+' ∉ a) (hc : '+' ∉ c) :
    (voiceCallRoute (some p) uid envF envA fetch).1 =
      some ⟨envF, p, envA, uid, cleanPhone p⟩ ∧
    cleanPhone ⟨a ++ '+' :: b⟩ = ⟨a ++ b⟩ ∧
    cleanPhone ⟨c⟩ = ⟨c⟩ := by
  have hfe : falsy (some p) = false := falsy_some_eq_false p hp
  refine ⟨?_, ?_, ?_⟩
  · simp only [voiceCallRoute, hfe, Bool.false_eq_true, if_false, Option.getD_some]
    cases h : fetch ⟨envF, p, envA, uid, cleanPhone p⟩ with
    | error e => simp [h]
    | ok r => cases hr : r.ok <;> simp [h, hr]
  · simp [cleanPhone, replaceFirstPlus_append a b ha]
  · simp [cleanPhone, replaceFirstPlus_no_plus c hc]

/-- C9 witness: a phone with two pluses keeps the second one in
`metadata.phone`, and the request keeps the leading plus in `to_number`. -/
theorem voice_call_phone_forwarding_witness :
    (voiceCallRoute (some "+1+23") none none none
        (fun _ => .ok ⟨true, "", some "call_1"⟩)).1 =
      some ⟨none, "+1+23", none, none, cleanPhone "+1+23"⟩ ∧
    cleanPhone ⟨['1'] ++ '+' :: ['2', '+', '3']⟩ = ⟨['1'] ++ ['2', '+', '3']⟩ ∧
    cleanPhone ⟨['4', '5']⟩ = ⟨['4', '5']⟩ :=
  voice_call_phone_forwarding "+1+23" none none none
    (fun _ => .ok ⟨true, "", some "call_1"⟩) ['1'] ['2', '+', '3'] ['4', '5']
    (by decide) (by decide) (by decide)

/-- C10: a chat request that reaches a 2xx provider response always gets a
200 whose `response` field is present and non-empty: the first choice's
content when that is a non-empty string, the fixed fallback otherwise. -/
theorem chat_response_always_nonempty :
    (∀ (m p : String) (uid sid envL : Option String)
        (fetch : RetellChatRequest → Except String ChatFetchResp)
        (txt : String) (cd : ChatData),
        m ≠ "" → p ≠ "" →
        fetch ⟨envL, [("user", m)], uid, cleanPhone p, sid⟩ = .ok ⟨true, txt, cd⟩ →
        (chatRoute (some m) (some p) uid sid envL fetch).2 =
          { status := 200, success := some true
            response := some (orFallback (firstChoiceContent cd) chatFallback)
            sessionId := cd.session_id } ∧
        orFallback (firstChoiceContent cd) chatFallback ≠ "") ∧
    (∀ (content fb : String), content ≠ "" → orFallback (some content) fb = content) ∧
    (∀ fb : String, orFallback none fb = fb) := by
  refine ⟨?_, ?_, ?_⟩
  · intro m p uid sid envL fetch txt cd hm hp hf
    have hme : falsy (some m) = false := falsy_some_eq_false m hm
    have hpe : falsy (some p) = false := falsy_some_eq_false p hp
    refine ⟨?_, orFallback_ne_empty _⟩
    simp [chatRoute, hme, hpe, hf]
  · intro content fb hcon
    have : content.isEmpty = false := isEmpty_eq_false_of_ne content hcon
    simp [orFallback, this]
  · intro fb
    rfl

/-- C10 witness: a provider message is forwarded verbatim, and a concrete
response with no choices gets the non-empty fallback. -/
theorem chat_response_always_nonempty_witness :
    ((chatRoute (some "hi") (some "+2") none none none
        (fun _ => .ok ⟨true, "", ⟨none, some "sess_1"⟩⟩)).2 =
      { status := 200, success := some true
        response := some (orFallback (firstChoiceContent ⟨none, some "sess_1"⟩) chatFallback)
        sessionId := some "sess_1" } ∧
     orFallback (firstChoiceContent ⟨none, some "sess_1"⟩) chatFallback ≠ "") ∧
    orFallback (some "hello") chatFallback = "hello" ∧
    orFallback none chatFallback = chatFallback :=
  ⟨chat_response_always_nonempty.1 "hi" "+2" none none none
     (fun _ => .ok ⟨true, "", ⟨none, some "sess_1"⟩⟩) "" ⟨none, some "sess_1"⟩
     (by decide) (by decide) rfl,
   chat_response_always_nonempty.2.1 "hello" chatFallback (by decide),
   chat_response_always_nonempty.2.2 chatFallback⟩

end Savana
